import Mathlib

/-!
Shallow embedding of the mimopy core (network graph, channel metrics,
antenna-array response, ray-cluster channel synthesis) and proofs of the
specification claims about it.

Modelling conventions:
* Python objects (AntennaArray nodes, Channel links) are identified by a
  natural-number id standing for the CPython object identity; default
  Python equality and hashing on these classes is identity, so `==` on
  objects is id equality in the model.
* Python dicts keyed by strings or by objects are association lists in
  insertion order; keys are unique by construction of the operations.
* Exceptions are modelled with `Except`; the error payload carries the
  state at the moment the exception is raised, so partial mutation
  before a raise is observable.
* The Channel base class (channels/awgn.py) is not present in the
  sources; its per-link scalar attributes read by network.py
  (rx_power, bf_gain, signal_power, bf_noise_power, snr and their _db
  variants) are modelled as opaque per-object real attributes.
-/

/-- Channel link as seen by network.py: object identity, display name and
the identities of the transmit and receive AntennaArray objects. -/
structure Chan where
  id : Nat
  name : String
  tx : Nat
  rx : Nat
deriving DecidableEq, Repr

/-- Value of the adjacency dict of network.py: the downlink list (node is
the transmitter) and the uplink list (node is the receiver). -/
structure ConnEntry where
  dl : List Chan
  ul : List Chan
deriving DecidableEq, Repr

/-- State of a Network object: the name-keyed link dict, the adjacency
dict keyed by node object identity, and each channel's private
random-stream position (number of realize() calls so far), which together
with the channel's parameters determines its stored matrix. -/
structure Network where
  links : List (String × Chan)
  connections : List (Nat × ConnEntry)
  draws : List (Nat × Nat)
deriving DecidableEq, Repr

/-- Lookup in a dict keyed by object identity. -/
def lookupA {β : Type} (xs : List (Nat × β)) (k : Nat) : Option β :=
  match xs with
  | [] => none
  | (k', v) :: rest => if k' = k then some v else lookupA rest k

/-- Lookup in a dict keyed by strings. -/
def lookupS {β : Type} (xs : List (String × β)) (k : String) : Option β :=
  match xs with
  | [] => none
  | (k', v) :: rest => if k' = k then some v else lookupS rest k

/-- In-place update of the value stored under a key (first occurrence;
keys are unique in every reachable state). -/
def updateA {β : Type} (xs : List (Nat × β)) (k : Nat) (f : β → β) :
    List (Nat × β) :=
  match xs with
  | [] => []
  | (k', v) :: rest =>
      if k' = k then (k', f v) :: rest else (k', v) :: updateA rest k f

/-- dict.pop(key, None) on a string-keyed dict: drop the entry if the key
is present, silently keep the dict otherwise. -/
def eraseS {β : Type} (xs : List (String × β)) (k : String) :
    List (String × β) :=
  match xs with
  | [] => []
  | (k', v) :: rest => if k' = k then rest else (k', v) :: eraseS rest k

/-- list.remove(x) on a list of Channel objects: drop the first element
identical to x (object identity), or raise ValueError (`none`). -/
def removeFirstChan : List Chan → Chan → Option (List Chan)
  | [], _ => none
  | x :: xs, c =>
      if x.id = c.id then some xs else (removeFirstChan xs c).map (x :: ·)

/-- Network with no nodes and no links. -/
def Network.empty : Network := ⟨[], [], []⟩

/-- Network._add_node: insert an adjacency entry with empty downlink and
uplink lists unless the node is already a key. -/
def Network.add_node (st : Network) (nid : Nat) : Network :=
  if (lookupA st.connections nid).isSome then st
  else { st with connections := st.connections ++ [(nid, ⟨[], []⟩)] }

/-- Network._add_link: if the link's name is not a key of the link dict
and the link object is not among its values, register the link under its
name, add both endpoint nodes, and append the link to the transmitter's
downlink list and the receiver's uplink list; otherwise do nothing. -/
def Network.add_link (st : Network) (L : Chan) : Network :=
  if (lookupS st.links L.name).isNone ∧ ∀ p ∈ st.links, p.2.id ≠ L.id then
    let st1 : Network := { st with links := st.links ++ [(L.name, L)] }
    let st2 := st1.add_node L.tx
    let st3 : Network :=
      { st2 with connections :=
          updateA st2.connections L.tx (fun e => { e with dl := e.dl ++ [L] }) }
    let st4 := st3.add_node L.rx
    { st4 with connections :=
        updateA st4.connections L.rx (fun e => { e with ul := e.ul ++ [L] }) }
  else st

/-- Network.add_links over an iterable of links. -/
def Network.add_links (st : Network) (ls : List Chan) : Network :=
  ls.foldl Network.add_link st

/-- Network.add_nodes over an iterable of nodes. -/
def Network.add_nodes (st : Network) (ns : List Nat) : Network :=
  ns.foldl Network.add_node st

/-- Sequence a list of channel-indexed stateful steps, propagating the
first raised exception together with the state at the raise. -/
def foldE (f : Network → Chan → Except (String × Network) Network) :
    Network → List Chan → Except (String × Network) Network
  | st, [] => .ok st
  | st, c :: cs =>
      match f st c with
      | .error p => .error p
      | .ok st' => foldE f st' cs

/-- connections[nid].ul.remove(c): raise KeyError if the node is not a
key, ValueError if the channel is not in the uplink list. -/
def removeFromUl (st : Network) (nid : Nat) (c : Chan) :
    Except (String × Network) Network :=
  match lookupA st.connections nid with
  | none => .error ("KeyError", st)
  | some e =>
      match removeFirstChan e.ul c with
      | none => .error ("ValueError", st)
      | some ul' =>
          .ok { st with connections :=
                  updateA st.connections nid (fun e0 => { e0 with ul := ul' }) }

/-- connections[nid].dl.remove(c): raise KeyError if the node is not a
key, ValueError if the channel is not in the downlink list. -/
def removeFromDl (st : Network) (nid : Nat) (c : Chan) :
    Except (String × Network) Network :=
  match lookupA st.connections nid with
  | none => .error ("KeyError", st)
  | some e =>
      match removeFirstChan e.dl c with
      | none => .error ("ValueError", st)
      | some dl' =>
          .ok { st with connections :=
                  updateA st.connections nid (fun e0 => { e0 with dl := dl' }) }

/-- Network._remove_node, exactly as written in network.py lines 85-95.
If the node is not a key of the adjacency dict the method silently does
nothing. Otherwise, for each link in the node's downlink list it executes
links.pop(link, None) — a no-op, because the dict is keyed by name
strings and is handed the Channel object, which never equals any string
key — and then removes the link from the receiver's uplink list; the
second loop re-reads the node's live uplink list and removes each of its
links from the transmitter's downlink list. The node itself is never
deleted from the adjacency dict and its own lists are never cleared. -/
def Network.remove_node (st : Network) (nid : Nat) :
    Except (String × Network) Network :=
  match lookupA st.connections nid with
  | none => .ok st
  | some e =>
      match foldE (fun s c => removeFromUl s c.rx c) st e.dl with
      | .error p => .error p
      | .ok st1 =>
          match lookupA st1.connections nid with
          | none => .error ("KeyError", st1)
          | some e1 => foldE (fun s c => removeFromDl s c.tx c) st1 e1.ul

/-- Network.remove_nodes over an iterable of nodes (the non-iterable
branch of the source is dead code: `nodes.__iter__` raises
AttributeError before it is reached for a bare node). -/
def Network.remove_nodes (st : Network) (ns : List Nat) :
    Except (String × Network) Network :=
  match ns with
  | [] => .ok st
  | n :: rest =>
      match st.remove_node n with
      | .error p => .error p
      | .ok st' => st'.remove_nodes rest

/-- Network._remove_link given a Channel object: pop the name key from
the link dict (no error if absent), then remove the object from its
transmitter's downlink list and its receiver's uplink list (KeyError or
ValueError if absent, leaving the pop already applied). -/
def Network.remove_link_obj (st : Network) (l : Chan) :
    Except (String × Network) Network :=
  let st1 : Network := { st with links := eraseS st.links l.name }
  match removeFromDl st1 l.tx l with
  | .error p => .error p
  | .ok st2 => removeFromUl st2 l.rx l

/-- Network._remove_link given a link name: look the name up in the link
dict (KeyError if absent, with the network untouched) and remove the
found object. -/
def Network.remove_link_name (st : Network) (name : String) :
    Except (String × Network) Network :=
  match lookupS st.links name with
  | none => .error ("KeyError", st)
  | some l => st.remove_link_obj l

/-- Channel.realize() as observed by the network state: advance the
channel's private random stream by one draw and store the redrawn matrix.
The stored matrix is a deterministic function of the channel, the arrays'
current geometry and the stream position, so two states agreeing on a
channel's entry hold bit-identical stored matrices for it. -/
def realizeChan (st : Network) (c : Chan) : Network :=
  if (lookupA st.draws c.id).isSome then
    { st with draws := updateA st.draws c.id (· + 1) }
  else
    { st with draws := st.draws ++ [(c.id, 1)] }

/-- Does the link occur in the downlink list stored under its own
transmitter node? -/
def underTx (st : Network) (c : Chan) : Bool :=
  match lookupA st.connections c.tx with
  | some e => decide (c ∈ e.dl)
  | none => false

/-- Does the link occur in the uplink list stored under its own receiver
node? -/
def underRx (st : Network) (c : Chan) : Bool :=
  match lookupA st.connections c.rx with
  | some e => decide (c ∈ e.ul)
  | none => false

/-- Graph-consistency invariant of the specification: every link of the
link dict appears in exactly one downlink list — the one of its
transmitter — and in exactly one uplink list — the one of its receiver —
and both endpoint nodes are keys of the adjacency dict (implied by the
occurrence of the link under them). -/
def noOrphans (st : Network) : Prop :=
  ∀ c ∈ st.links.map Prod.snd,
    ((st.connections.map (fun p => p.2.dl.countP (fun x => x.id = c.id))).sum = 1
    ∧ (st.connections.map (fun p => p.2.ul.countP (fun x => x.id = c.id))).sum = 1)
    ∧ underTx st c = true ∧ underRx st c = true

instance (st : Network) : Decidable (noOrphans st) :=
  List.decidableBAll _ _

/-- Modelled from the spec: the per-link scalar metrics of the abstract
Channel contract (spec section 4.2). The Channel base class
(channels/awgn.py) is absent from the sources — only its callers in
network.py are — so each metric read by network.py (rx_power, bf_gain,
signal_power, bf_noise_power, snr, snr_upper_bound and their dB
variants) is an opaque per-object real attribute, indexed by the channel
object's identity. -/
structure ChanAttrs where
  rx_power : Nat → ℝ
  bf_gain : Nat → ℝ
  bf_gain_db : Nat → ℝ
  signal_power : Nat → ℝ
  signal_power_db : Nat → ℝ
  bf_noise_power : Nat → ℝ
  bf_noise_power_db : Nat → ℝ
  snr : Nat → ℝ
  snr_db : Nat → ℝ
  snr_upper_bound : Nat → ℝ
  snr_upper_bound_db : Nat → ℝ

/-- Argument of the polymorphic per-link metric accessors of network.py:
no argument, a link name, a single Channel object, or an iterable of
Channel objects. -/
inductive MetricArg where
  | omitted
  | name (s : String)
  | one (c : Chan)
  | many (cs : List Chan)

/-- Result of a metric accessor: a scalar, a dict keyed by the link
objects, a list, or a raised exception. -/
inductive MetricOut where
  | val (x : ℝ)
  | dict (m : List (Nat × ℝ))
  | list (xs : List ℝ)
  | err (msg : String)

/-- Network.rx_power dispatch: omitted argument maps the metric over
every registered link, a name is looked up in the link dict, an iterable
is mapped elementwise, and a Channel object yields link.rx_power. -/
def Network.rx_power (A : ChanAttrs) (st : Network) : MetricArg → MetricOut
  | .omitted => .dict (st.links.map (fun p => (p.2.id, A.rx_power p.2.id)))
  | .name s =>
      match lookupS st.links s with
      | none => .err "KeyError"
      | some c => .val (A.rx_power c.id)
  | .one c => .val (A.rx_power c.id)
  | .many cs => .dict (cs.map (fun c => (c.id, A.rx_power c.id)))

/-- Network.bf_gain dispatch, as written: the omitted, name and object
forms return link.bf_gain_db (or link.bf_gain when db is false), but the
iterable branch at line 228 computes self.snr(lk, db) for each element
instead of the beamforming gain. -/
def Network.bf_gain (A : ChanAttrs) (st : Network) :
    MetricArg → Bool → MetricOut
  | .omitted, db =>
      .dict (st.links.map
        (fun p => (p.2.id, if db then A.bf_gain_db p.2.id else A.bf_gain p.2.id)))
  | .name s, db =>
      match lookupS st.links s with
      | none => .err "KeyError"
      | some c => .val (if db then A.bf_gain_db c.id else A.bf_gain c.id)
  | .one c, db => .val (if db then A.bf_gain_db c.id else A.bf_gain c.id)
  | .many cs, db =>
      .dict (cs.map (fun c => (c.id, if db then A.snr_db c.id else A.snr c.id)))

/-- Network.signal_power dispatch, as written: the iterable branch at
line 240 computes self.snr(lk, db) instead of the signal power. -/
def Network.signal_power (A : ChanAttrs) (st : Network) :
    MetricArg → Bool → MetricOut
  | .omitted, db =>
      .dict (st.links.map
        (fun p => (p.2.id, if db then A.signal_power_db p.2.id else A.signal_power p.2.id)))
  | .name s, db =>
      match lookupS st.links s with
      | none => .err "KeyError"
      | some c => .val (if db then A.signal_power_db c.id else A.signal_power c.id)
  | .one c, db => .val (if db then A.signal_power_db c.id else A.signal_power c.id)
  | .many cs, db =>
      .dict (cs.map (fun c => (c.id, if db then A.snr_db c.id else A.snr c.id)))

/-- Network.bf_noise_power dispatch, as written: the iterable branch at
line 250 computes self.snr(lk, db=db) instead of the beamformed noise
power. -/
def Network.bf_noise_power (A : ChanAttrs) (st : Network) :
    MetricArg → Bool → MetricOut
  | .omitted, db =>
      .dict (st.links.map
        (fun p => (p.2.id, if db then A.bf_noise_power_db p.2.id else A.bf_noise_power p.2.id)))
  | .name s, db =>
      match lookupS st.links s with
      | none => .err "KeyError"
      | some c => .val (if db then A.bf_noise_power_db c.id else A.bf_noise_power c.id)
  | .one c, db => .val (if db then A.bf_noise_power_db c.id else A.bf_noise_power c.id)
  | .many cs, db =>
      .dict (cs.map (fun c => (c.id, if db then A.snr_db c.id else A.snr c.id)))

/-- Network.snr dispatch, as written: the Iterable test at line 257 comes
before the string test, and a Python str is an Iterable, so a link name
recurses over its own characters (each character again a str) without a
base case — CPython raises RecursionError. The iterable branch returns a
list, unlike the dict of the other accessors. -/
def Network.snr (A : ChanAttrs) (st : Network) : MetricArg → Bool → MetricOut
  | .omitted, db =>
      .dict (st.links.map
        (fun p => (p.2.id, if db then A.snr_db p.2.id else A.snr p.2.id)))
  | .name _, _ => .err "RecursionError"
  | .one c, db => .val (if db then A.snr_db c.id else A.snr c.id)
  | .many cs, db =>
      .list (cs.map (fun c => if db then A.snr_db c.id else A.snr c.id))

/-- Network.snr_upper_bound dispatch (string tested before iterable; the
iterable branch returns a list of the same metric). -/
def Network.snr_upper_bound (A : ChanAttrs) (st : Network) :
    MetricArg → Bool → MetricOut
  | .omitted, db =>
      .dict (st.links.map
        (fun p => (p.2.id, if db then A.snr_upper_bound_db p.2.id else A.snr_upper_bound p.2.id)))
  | .name s, db =>
      match lookupS st.links s with
      | none => .err "KeyError"
      | some c => .val (if db then A.snr_upper_bound_db c.id else A.snr_upper_bound c.id)
  | .one c, db => .val (if db then A.snr_upper_bound_db c.id else A.snr_upper_bound c.id)
  | .many cs, db =>
      .list (cs.map (fun c => if db then A.snr_upper_bound_db c.id else A.snr_upper_bound c.id))

/-- Smallest positive normal double, the value of np.finfo(float).tiny,
used as the numerical floor before every logarithm. -/
noncomputable def tinyFloat : ℝ := (2 : ℝ) ^ (-1022 : ℤ)

/-- The uniform dB conversion of network.py: 10·log10(x + tiny). -/
noncomputable def dB10 (x : ℝ) : ℝ := 10 * Real.logb 10 (x + tinyFloat)

/-- Network.interference for a Channel object argument (lines 283-288):
sum link.signal_power (via the object form of the signal_power accessor,
with db False) over every entry of the receiver's uplink list that is
not the link itself, then convert to dB if requested. -/
noncomputable def Network.interference (A : ChanAttrs) (st : Network)
    (link : Chan) (db : Bool) : MetricOut :=
  match lookupA st.connections link.rx with
  | none => .err "KeyError"
  | some e =>
      let i := e.ul.foldl
        (fun acc ul => if ul.id ≠ link.id then acc + A.signal_power ul.id else acc) 0
      if db then .val (dB10 i) else .val i

/-- Network.inr_upper_bound for a Channel object argument (lines
318-329): accumulate ul.rx_power · ul.tx.N · ul.rx.N over every other
uplink at the link's receiver, then read link.rx.noise_power_lin —
an attribute AntennaArray does not define (it defines noise_power,
_noise_power and noise_power_dbm), so the method raises AttributeError
before returning. nodeN gives each AntennaArray object's element count
attribute N. -/
noncomputable def Network.inr_upper_bound (A : ChanAttrs) (nodeN : Nat → ℕ)
    (st : Network) (link : Chan) (db : Bool) : MetricOut :=
  match lookupA st.connections link.rx with
  | none => .err "KeyError"
  | some e =>
      let s := e.ul.foldl
        (fun acc ul =>
          if ul.id ≠ link.id then
            acc + A.rx_power ul.id * (nodeN ul.tx : ℝ) * (nodeN ul.rx : ℝ)
          else acc) 0
      .err "AttributeError: AntennaArray object has no attribute noise_power_lin"

/-- Geometry store: each AntennaArray object's coordinate rows, keyed by
the object's identity. -/
abbrev Geom := List (Nat × List (ℝ × ℝ × ℝ))

/-- Mean of the coordinate rows: the array_center / location property. -/
noncomputable def centroid (coords : List (ℝ × ℝ × ℝ)) : ℝ × ℝ × ℝ :=
  ((coords.map (fun v => v.1)).sum / coords.length,
   (coords.map (fun v => v.2.1)).sum / coords.length,
   (coords.map (fun v => v.2.2)).sum / coords.length)

/-- The location setter of AntennaArray: add loc - location to every
coordinate row. -/
noncomputable def setLocation (coords : List (ℝ × ℝ × ℝ)) (loc : ℝ × ℝ × ℝ) :
    List (ℝ × ℝ × ℝ) :=
  coords.map (· + (loc - centroid coords))

/-- Network.move_node (lines 126-142): first set node.location, which
translates the node object's coordinate rows, then look the node up in
the adjacency dict (KeyError here leaves the translation already
applied) and call realize() on each channel of its downlink list and
then of its uplink list. -/
noncomputable def Network.move_node (st : Network) (geom : Geom) (nid : Nat)
    (loc : ℝ × ℝ × ℝ) : Except (String × Network × Geom) (Network × Geom) :=
  let geom' := updateA geom nid (fun cs => setLocation cs loc)
  match lookupA st.connections nid with
  | none => .error ("KeyError", st, geom')
  | some e =>
      let st1 := e.dl.foldl realizeChan st
      let st2 := e.ul.foldl realizeChan st1
      .ok (st2, geom')

/-- Coordinates, weights and element count of an AntennaArray, for the
element-removal operations. -/
structure ArrayState where
  coordinates : List (ℝ × ℝ × ℝ)
  weights : List ℝ
  num_antennas : Nat

/-- AntennaArray.remove_elements with a coordinates argument (lines
335-357): the source defines the helper as a nested two-parameter
function _remove_elements_by_coord(self, coordinates) and calls it with
the single argument coordinates, so the call binds the query to self and
raises TypeError for the missing positional argument before the array is
touched — for every query, in particular one matching zero rows. -/
def ArrayState.remove_elements_coord (arr : ArrayState)
    (coordinates : List (ℝ × ℝ × ℝ)) : Except (String × ArrayState) ArrayState :=
  .error ("TypeError: _remove_elements_by_coord missing 1 required positional argument",
          arr)

/-- Planewave phase of element k relative to element 0 in
AntennaArray.get_array_response (lines 493-513): with displacement
(dx, dy, dz) = coordinates[k] - coordinates[0], the phase is
2π·(dx·sin(az)·cos(el) + dy·cos(az)·cos(el) + dz·sin(el)). The element
count is n+1, matching the invariant N ≥ 1. -/
noncomputable def arrayPhase {n : ℕ} (coords : Fin (n + 1) → ℝ × ℝ × ℝ)
    (az el : ℝ) (k : Fin (n + 1)) : ℝ :=
  2 * Real.pi *
    (((coords k).1 - (coords 0).1) * Real.sin az * Real.cos el
     + ((coords k).2.1 - (coords 0).2.1) * Real.cos az * Real.cos el
     + ((coords k).2.2 - (coords 0).2.2) * Real.sin el)

/-- AntennaArray.get_array_response at one (az, el) direction: the entry
for element k is exp(i · phase k). -/
noncomputable def get_array_response {n : ℕ} (coords : Fin (n + 1) → ℝ × ℝ × ℝ)
    (az el : ℝ) (k : Fin (n + 1)) : ℂ :=
  Complex.exp (Complex.I * (arrayPhase coords az el k : ℝ))

/-- RayClusterChannel.generate_channel_matrix (lines 89-106) for batch
item b: the ray axis has length equal to the total ray count (the sum of
the per-cluster ray counts, to which each cluster's angle was broadcast
by generate_ray_angles); the receive response is evaluated at each ray's
angle of arrival with elevation 0, the transmit response at each ray's
angle of departure; the einsum bn,bnr,bnt->brt forms
H[b,r,t] = Σ_n gain[b,n]·arx[b,n,r]·conj(atx[b,n,t]), and H is then
divided by the square root of the total ray count. -/
noncomputable def generate_channel_matrix (B : ℕ) (nraysPerCluster : List ℕ)
    {Nr Nt : ℕ}
    (rxCoords : Fin (Nr + 1) → ℝ × ℝ × ℝ) (txCoords : Fin (Nt + 1) → ℝ × ℝ × ℝ)
    (aoa aod : Fin B → Fin nraysPerCluster.sum → ℝ)
    (gain : Fin B → Fin nraysPerCluster.sum → ℂ) (b : Fin B) :
    Matrix (Fin (Nr + 1)) (Fin (Nt + 1)) ℂ :=
  fun r t =>
    (∑ nray, gain b nray * get_array_response rxCoords (aoa b nray) 0 r
        * starRingEnd ℂ (get_array_response txCoords (aod b nray) 0 t))
      / ((Real.sqrt nraysPerCluster.sum : ℝ) : ℂ)

/-- The channel matrix as the specification words it: the sum over all
rays of the ray gain times the outer product of the receive response
with the conjugated transmit response, normalized by the square root of
the total ray count summed across all clusters. -/
noncomputable def spec_channel_matrix (B : ℕ) (nraysPerCluster : List ℕ)
    {Nr Nt : ℕ}
    (rxCoords : Fin (Nr + 1) → ℝ × ℝ × ℝ) (txCoords : Fin (Nt + 1) → ℝ × ℝ × ℝ)
    (aoa aod : Fin B → Fin nraysPerCluster.sum → ℝ)
    (gain : Fin B → Fin nraysPerCluster.sum → ℂ) (b : Fin B) :
    Matrix (Fin (Nr + 1)) (Fin (Nt + 1)) ℂ :=
  (((Real.sqrt nraysPerCluster.sum : ℝ) : ℂ))⁻¹ •
    ∑ nray, gain b nray •
      Matrix.vecMulVec (fun r => get_array_response rxCoords (aoa b nray) 0 r)
        (fun t => starRingEnd ℂ (get_array_response txCoords (aod b nray) 0 t))

/-- Claim C5: the array response assigns to each element the unit-modulus
phase factor exp(i·2π·(dx·sin(az)·cos(el) + dy·cos(az)·cos(el) +
dz·sin(el))) of its displacement from element 0, and the entry for
element 0 itself is exactly 1 for every direction. -/
theorem get_array_response_elementwise {n : ℕ}
    (coords : Fin (n + 1) → ℝ × ℝ × ℝ) (az el : ℝ) :
    (∀ k, get_array_response coords az el k
        = Complex.exp (Complex.I * ((2 * Real.pi *
            (((coords k).1 - (coords 0).1) * Real.sin az * Real.cos el
             + ((coords k).2.1 - (coords 0).2.1) * Real.cos az * Real.cos el
             + ((coords k).2.2 - (coords 0).2.2) * Real.sin el) : ℝ))))
    ∧ get_array_response coords az el 0 = 1
    ∧ ∀ k, Complex.abs (get_array_response coords az el k) = 1 := by
  refine ⟨fun k => rfl, ?_, ?_⟩
  · unfold get_array_response arrayPhase
    simp [sub_self]
  · intro k
    unfold get_array_response
    rw [Complex.abs_exp]
    simp [Complex.mul_re]

/-- Claim C4: the channel matrix built by generate_channel_matrix from
the ray angles of arrival and departure and the complex ray gains equals
the sum over all rays of the gain times the outer product of the receive
response with the conjugated transmit response, divided by the square
root of the total ray count summed over all clusters. -/
theorem generate_channel_matrix_is_normalized_outer_sum
    (B : ℕ) (nraysPerCluster : List ℕ) {Nr Nt : ℕ}
    (rxCoords : Fin (Nr + 1) → ℝ × ℝ × ℝ) (txCoords : Fin (Nt + 1) → ℝ × ℝ × ℝ)
    (aoa aod : Fin B → Fin nraysPerCluster.sum → ℝ)
    (gain : Fin B → Fin nraysPerCluster.sum → ℂ) (b : Fin B) :
    generate_channel_matrix B nraysPerCluster rxCoords txCoords aoa aod gain b
      = spec_channel_matrix B nraysPerCluster rxCoords txCoords aoa aod gain b := by
  funext r t
  unfold generate_channel_matrix spec_channel_matrix
  simp only [Matrix.smul_apply, Matrix.sum_apply, Matrix.vecMulVec_apply,
    smul_eq_mul, div_eq_inv_mul, Finset.mul_sum]
  exact Finset.sum_congr rfl (fun nray _ => by ring)

deriving instance DecidableEq for Except

theorem add_node_links (st : Network) (nid : Nat) :
    (st.add_node nid).links = st.links := by
  unfold Network.add_node
  split <;> rfl

theorem lookupS_append_isSome {β : Type} (xs : List (String × β)) (k : String)
    (v : β) : (lookupS (xs ++ [(k, v)]) k).isSome = true := by
  induction xs with
  | nil => simp [lookupS]
  | cons p rest ih =>
      rw [List.cons_append]
      unfold lookupS
      split
      · rfl
      · exact ih

theorem add_link_links_of_guard (st : Network) (L : Chan)
    (hg : (lookupS st.links L.name).isNone ∧ ∀ p ∈ st.links, p.2.id ≠ L.id) :
    (st.add_link L).links = st.links ++ [(L.name, L)] := by
  unfold Network.add_link
  rw [if_pos hg]
  simp [add_node_links]

/-- Claim C10: adding a link is idempotent and duplicate-safe — a second
add of the same link, an add of a link whose name is already a key of
the link dict, and an add of a link object already registered all leave
the network unchanged, with no error, so adding twice equals adding
once. -/
theorem add_link_idempotent (st : Network) (L : Chan) :
    (st.add_link L).add_link L = st.add_link L
    ∧ st.add_links [L, L] = st.add_links [L]
    ∧ ((lookupS st.links L.name).isSome = true → st.add_link L = st)
    ∧ ((∃ p ∈ st.links, p.2.id = L.id) → st.add_link L = st) := by
  have hno : ∀ t : Network, (lookupS t.links L.name).isSome = true →
      t.add_link L = t := by
    intro t ht
    unfold Network.add_link
    rw [if_neg]
    intro hg
    rw [Option.isNone_iff_eq_none] at hg
    rw [hg.1] at ht
    exact Bool.false_ne_true ht
  have hid : ∀ t : Network, (∃ p ∈ t.links, p.2.id = L.id) →
      t.add_link L = t := by
    intro t ht
    unfold Network.add_link
    rw [if_neg]
    intro hg
    obtain ⟨p, hp, hpe⟩ := ht
    exact hg.2 p hp hpe
  have h1 : (st.add_link L).add_link L = st.add_link L := by
    by_cases hg : (lookupS st.links L.name).isNone ∧ ∀ p ∈ st.links, p.2.id ≠ L.id
    · apply hno
      rw [add_link_links_of_guard st L hg]
      exact lookupS_append_isSome st.links L.name L
    · have h0 : st.add_link L = st := by
        unfold Network.add_link
        rw [if_neg hg]
      rw [h0]
      exact h0
  exact ⟨h1, h1, hno st, hid st⟩

/-- Witness for add_link_idempotent: a concrete second add of the same
link, and an add of a fresh object carrying an already-registered name,
are both no-ops. -/
theorem add_link_idempotent_witness :
    ((Network.empty.add_link ⟨1, "a", 2, 3⟩).add_link ⟨1, "a", 2, 3⟩
        = Network.empty.add_link ⟨1, "a", 2, 3⟩)
    ∧ (lookupS (Network.empty.add_link ⟨1, "a", 2, 3⟩).links "a").isSome = true
    ∧ (Network.empty.add_link ⟨1, "a", 2, 3⟩).add_link ⟨9, "a", 2, 3⟩
        = Network.empty.add_link ⟨1, "a", 2, 3⟩ :=
  ⟨(add_link_idempotent Network.empty ⟨1, "a", 2, 3⟩).1,
   by decide,
   (add_link_idempotent (Network.empty.add_link ⟨1, "a", 2, 3⟩) ⟨9, "a", 2, 3⟩).2.2.1
     (by decide)⟩

/-- Claim C1 (code slip, evaluated): with a single link L named "L" from
node 10 to node 20, remove_nodes([10]) leaves "L" in the link dict —
links.pop is given the Channel object while the dict is keyed by name
strings — and leaves L in node 10's own downlink list, while it does
remove L from node 20's uplink list; adding a fresh identically-named
link afterwards is then a silent no-op instead of a fresh registration. -/
theorem remove_node_leaves_link_mapping :
    ((Network.empty.add_links [⟨1, "L", 10, 20⟩]).remove_nodes [10])
      = .ok (Network.mk [("L", ⟨1, "L", 10, 20⟩)]
             [(10, ⟨[⟨1, "L", 10, 20⟩], []⟩), (20, ⟨[], []⟩)] [])
    ∧ (Network.mk [("L", ⟨1, "L", 10, 20⟩)]
             [(10, ⟨[⟨1, "L", 10, 20⟩], []⟩), (20, ⟨[], []⟩)] []).add_links
          [⟨2, "L", 10, 20⟩]
        = Network.mk [("L", ⟨1, "L", 10, 20⟩)]
             [(10, ⟨[⟨1, "L", 10, 20⟩], []⟩), (20, ⟨[], []⟩)] [] := by
  decide

/-- Claim C2 (code slip, evaluated): the graph-consistency invariant
holds after adding link L from node 10 to node 20 but is violated after
the operation sequence continues with remove_nodes([10]): L is still a
value of the link dict yet occurs in no uplink list. -/
theorem remove_node_violates_consistency :
    noOrphans (Network.empty.add_links [⟨1, "L", 10, 20⟩])
    ∧ ((Network.empty.add_links [⟨1, "L", 10, 20⟩]).remove_nodes [10])
        = .ok (Network.mk [("L", ⟨1, "L", 10, 20⟩)]
               [(10, ⟨[⟨1, "L", 10, 20⟩], []⟩), (20, ⟨[], []⟩)] [])
    ∧ ¬ noOrphans (Network.mk [("L", ⟨1, "L", 10, 20⟩)]
               [(10, ⟨[⟨1, "L", 10, 20⟩], []⟩), (20, ⟨[], []⟩)] []) := by
  decide

/-- Counterexample to claim C8 as stated: removing a node that is not
present (node 99 here) raises no error at all — remove_nodes returns
normally with the network unchanged. -/
theorem remove_absent_node_raises_no_error :
    (Network.empty.add_links [⟨1, "L", 10, 20⟩]).remove_nodes [99]
      = .ok (Network.empty.add_links [⟨1, "L", 10, 20⟩]) := by
  decide

/-- Claim C8 as amended: removing a link by a name that is not a key
raises KeyError with the network exactly as it was; removing a node that
is not present is a silent no-op (no error), also leaving the network
unchanged; and removing antenna elements by coordinates raises an error
and leaves the array's coordinates, weights and element count unchanged
(the nested removal helper is called without its self argument, so every
coordinate-based removal — the zero-match case included — raises
TypeError before mutating). -/
theorem lookup_failures_amended (st : Network) (name : String) (nid : Nat)
    (arr : ArrayState) (q : List (ℝ × ℝ × ℝ))
    (hname : lookupS st.links name = none)
    (hnid : lookupA st.connections nid = none) :
    st.remove_link_name name = .error ("KeyError", st)
    ∧ st.remove_nodes [nid] = .ok st
    ∧ arr.remove_elements_coord q
        = .error
            ("TypeError: _remove_elements_by_coord missing 1 required positional argument",
             arr) := by
  refine ⟨?_, ?_, rfl⟩
  · unfold Network.remove_link_name
    rw [hname]
  · unfold Network.remove_nodes Network.remove_node
    rw [hnid]
    rfl

/-- Witness for lookup_failures_amended at a network holding one link
and one antenna element. -/
theorem lookup_failures_amended_witness :
    lookupS (Network.empty.add_links [⟨1, "L", 10, 20⟩]).links "absent" = none
    ∧ lookupA (Network.empty.add_links [⟨1, "L", 10, 20⟩]).connections 99 = none
    ∧ ((Network.empty.add_links [⟨1, "L", 10, 20⟩]).remove_link_name "absent"
        = .error ("KeyError", Network.empty.add_links [⟨1, "L", 10, 20⟩])
      ∧ (Network.empty.add_links [⟨1, "L", 10, 20⟩]).remove_nodes [99]
        = .ok (Network.empty.add_links [⟨1, "L", 10, 20⟩])
      ∧ (ArrayState.mk [(0, 0, 0)] [1] 1).remove_elements_coord [(5, 5, 5)]
        = .error
            ("TypeError: _remove_elements_by_coord missing 1 required positional argument",
             ArrayState.mk [(0, 0, 0)] [1] 1)) :=
  ⟨by decide, by decide,
   lookup_failures_amended (Network.empty.add_links [⟨1, "L", 10, 20⟩])
     "absent" 99 (ArrayState.mk [(0, 0, 0)] [1] 1) [(5, 5, 5)]
     (by decide) (by decide)⟩

theorem foldl_if_ne_sum (f : Nat → ℝ) (i : Nat) :
    ∀ (l : List Chan) (a : ℝ),
      l.foldl (fun acc u => if u.id ≠ i then acc + f u.id else acc) a
        = a + ((l.filter (fun u => u.id ≠ i)).map (fun u => f u.id)).sum
  | [], a => by simp
  | x :: xs, a => by
      by_cases hx : x.id ≠ i
      · rw [List.foldl_cons, if_pos hx, foldl_if_ne_sum f i xs (a + f x.id),
          List.filter_cons_of_pos (by simpa using hx), List.map_cons,
          List.sum_cons]
        ring
      · rw [List.foldl_cons, if_neg hx, foldl_if_ne_sum f i xs a,
          List.filter_cons_of_neg (by simpa using hx)]

/-- Claim C3: interference of a registered link, with db False, is the
sum of the linear signal power of every other uplink channel in the
receiver's uplink list, the link itself excluded; in particular, in a
network built from two links sharing receiver node 20, the interference
of the first link is exactly the signal power of the second. -/
theorem interference_excludes_self (A : ChanAttrs) (st : Network) (L : Chan)
    (e : ConnEntry) (h : lookupA st.connections L.rx = some e) :
    Network.interference A st L false
      = .val (((e.ul.filter (fun u => u.id ≠ L.id)).map
          (fun u => A.signal_power u.id)).sum)
    ∧ ∀ A2 : ChanAttrs,
        Network.interference A2
            (Network.empty.add_links [⟨1, "a", 10, 20⟩, ⟨2, "b", 11, 20⟩])
            ⟨1, "a", 10, 20⟩ false
          = .val (A2.signal_power 2) := by
  constructor
  · unfold Network.interference
    rw [h]
    simp only [foldl_if_ne_sum, zero_add]
    rfl
  · intro A2
    have hst : Network.empty.add_links [⟨1, "a", 10, 20⟩, ⟨2, "b", 11, 20⟩]
        = Network.mk [("a", ⟨1, "a", 10, 20⟩), ("b", ⟨2, "b", 11, 20⟩)]
            [(10, ⟨[⟨1, "a", 10, 20⟩], []⟩),
             (20, ⟨[], [⟨1, "a", 10, 20⟩, ⟨2, "b", 11, 20⟩]⟩),
             (11, ⟨[⟨2, "b", 11, 20⟩], []⟩)] [] := by decide
    rw [hst]
    unfold Network.interference
    norm_num [lookupA]

/-- Witness for interference_excludes_self at a concrete two-link
network sharing receiver node 20. -/
theorem interference_excludes_self_witness :
    lookupA (Network.empty.add_links
        [⟨1, "a", 10, 20⟩, ⟨2, "b", 11, 20⟩]).connections
        (Chan.mk 1 "a" 10 20).rx
      = some ⟨[], [⟨1, "a", 10, 20⟩, ⟨2, "b", 11, 20⟩]⟩
    ∧ (Network.interference ⟨fun _ => 0, fun _ => 0, fun _ => 0, fun _ => 0,
          fun _ => 0, fun _ => 0, fun _ => 0, fun _ => 0, fun _ => 0,
          fun _ => 0, fun _ => 0⟩
          (Network.empty.add_links [⟨1, "a", 10, 20⟩, ⟨2, "b", 11, 20⟩])
          ⟨1, "a", 10, 20⟩ false
        = .val ((((ConnEntry.mk [] [⟨1, "a", 10, 20⟩, ⟨2, "b", 11, 20⟩]).ul.filter
            (fun u => u.id ≠ (Chan.mk 1 "a" 10 20).id)).map
            (fun u => (0 : ℝ))).sum)) :=
  ⟨by decide,
   by
    have h := (interference_excludes_self
      ⟨fun _ => 0, fun _ => 0, fun _ => 0, fun _ => 0, fun _ => 0, fun _ => 0,
       fun _ => 0, fun _ => 0, fun _ => 0, fun _ => 0, fun _ => 0⟩
      (Network.empty.add_links [⟨1, "a", 10, 20⟩, ⟨2, "b", 11, 20⟩])
      ⟨1, "a", 10, 20⟩
      ⟨[], [⟨1, "a", 10, 20⟩, ⟨2, "b", 11, 20⟩]⟩ (by decide)).1
    exact h⟩

/-- Concrete channel attributes for exercising the metric dispatch: the
beamforming gain of every link is 0 dB while its SNR is 1 dB. -/
def attrsC7 : ChanAttrs :=
  ⟨fun _ => 0, fun _ => 0, fun _ => 0, fun _ => 0, fun _ => 0, fun _ => 0,
   fun _ => 0, fun _ => 0, fun _ => 1, fun _ => 0, fun _ => 0⟩

/-- Claim C7 (code slip, evaluated): with a registered link whose
bf_gain_db is 0 and snr_db is 1, the object and name forms of bf_gain
return 0, but the iterable form returns the SNR value 1 — the dispatch
form changes which metric is computed (and the snr accessor tests
Iterable before str, so a name argument never reaches the lookup and
recurses into RecursionError). -/
theorem bf_gain_iterable_returns_other_metric :
    Network.bf_gain attrsC7 (Network.empty.add_links [⟨1, "L1", 10, 20⟩])
        (.one ⟨1, "L1", 10, 20⟩) true = .val 0
    ∧ Network.bf_gain attrsC7 (Network.empty.add_links [⟨1, "L1", 10, 20⟩])
        (.name "L1") true = .val 0
    ∧ Network.bf_gain attrsC7 (Network.empty.add_links [⟨1, "L1", 10, 20⟩])
        (.many [⟨1, "L1", 10, 20⟩]) true = .dict [(1, 1)]
    ∧ Network.snr attrsC7 (Network.empty.add_links [⟨1, "L1", 10, 20⟩])
        (.name "L1") true = .err "RecursionError"
    ∧ (0 : ℝ) ≠ 1 := by
  refine ⟨rfl, ?_, rfl, rfl, zero_ne_one⟩
  have hst : Network.empty.add_links [⟨1, "L1", 10, 20⟩]
      = Network.mk [("L1", ⟨1, "L1", 10, 20⟩)]
          [(10, ⟨[⟨1, "L1", 10, 20⟩], []⟩), (20, ⟨[], [⟨1, "L1", 10, 20⟩]⟩)] []
      := by decide
  rw [hst]
  rfl

/-- Claim C9 (code slip, evaluated): inr_upper_bound on a registered
link of a two-link network raises AttributeError, because line 328 reads
link.rx.noise_power_lin and AntennaArray defines no such attribute. -/
theorem inr_upper_bound_raises_attribute_error (A : ChanAttrs)
    (nodeN : Nat → ℕ) :
    Network.inr_upper_bound A nodeN
        (Network.empty.add_links [⟨1, "a", 10, 20⟩, ⟨2, "b", 11, 20⟩])
        ⟨1, "a", 10, 20⟩ true
      = .err "AttributeError: AntennaArray object has no attribute noise_power_lin" := by
  have hst : Network.empty.add_links [⟨1, "a", 10, 20⟩, ⟨2, "b", 11, 20⟩]
      = Network.mk [("a", ⟨1, "a", 10, 20⟩), ("b", ⟨2, "b", 11, 20⟩)]
          [(10, ⟨[⟨1, "a", 10, 20⟩], []⟩),
           (20, ⟨[], [⟨1, "a", 10, 20⟩, ⟨2, "b", 11, 20⟩]⟩),
           (11, ⟨[⟨2, "b", 11, 20⟩], []⟩)] [] := by decide
  rw [hst]
  rfl

theorem lookupA_updateA_ne {β : Type} (k j : Nat) (f : β → β) (hne : j ≠ k) :
    ∀ xs : List (Nat × β), lookupA (updateA xs k f) j = lookupA xs j
  | [] => rfl
  | (k', v) :: rest => by
      by_cases hk : k' = k
      · subst hk
        have hj : ¬ k' = j := fun h => hne h.symm
        simp [updateA, lookupA, hj]
      · by_cases hj : k' = j
        · subst hj
          simp [updateA, lookupA, hk]
        · simp [updateA, lookupA, hk, hj,
            lookupA_updateA_ne k j f hne rest]

theorem lookupA_append_ne {β : Type} (k j : Nat) (v : β) (hne : j ≠ k) :
    ∀ xs : List (Nat × β), lookupA (xs ++ [(k, v)]) j = lookupA xs j
  | [] => by
      have hj : ¬ k = j := fun h => hne h.symm
      simp [lookupA, hj]
  | (k', w) :: rest => by
      by_cases hj : k' = j
      · subst hj
        simp [lookupA]
      · simp [lookupA, hj, lookupA_append_ne k j v hne rest]

theorem realizeChan_links (st : Network) (c : Chan) :
    (realizeChan st c).links = st.links := by
  unfold realizeChan
  split <;> rfl

theorem realizeChan_connections (st : Network) (c : Chan) :
    (realizeChan st c).connections = st.connections := by
  unfold realizeChan
  split <;> rfl

theorem realizeChan_draws_ne (st : Network) (c : Chan) (j : Nat)
    (hne : j ≠ c.id) :
    lookupA (realizeChan st c).draws j = lookupA st.draws j := by
  unfold realizeChan
  split
  · exact lookupA_updateA_ne c.id j _ hne st.draws
  · exact lookupA_append_ne c.id j 1 hne st.draws

theorem foldl_realizeChan_links (st : Network) :
    ∀ cs : List Chan, (cs.foldl realizeChan st).links = st.links
  | [] => rfl
  | c :: cs => by
      rw [List.foldl_cons, foldl_realizeChan_links (realizeChan st c) cs,
        realizeChan_links]

theorem foldl_realizeChan_connections (st : Network) :
    ∀ cs : List Chan, (cs.foldl realizeChan st).connections = st.connections
  | [] => rfl
  | c :: cs => by
      rw [List.foldl_cons, foldl_realizeChan_connections (realizeChan st c) cs,
        realizeChan_connections]

theorem foldl_realizeChan_draws_ne (j : Nat) :
    ∀ (cs : List Chan) (st : Network), j ∉ cs.map Chan.id →
      lookupA (cs.foldl realizeChan st).draws j = lookupA st.draws j
  | [], _, _ => rfl
  | c :: cs, st, h => by
      rw [List.map_cons] at h
      rw [List.foldl_cons,
        foldl_realizeChan_draws_ne j cs (realizeChan st c)
          (fun hm => h (List.mem_cons_of_mem _ hm)),
        realizeChan_draws_ne st c j (fun hj => h (by rw [hj]; exact List.mem_cons_self _ _))]

theorem sum_map_add_const {α : Type} (g : α → ℝ) (d : ℝ) :
    ∀ l : List α, (l.map (fun v => g v + d)).sum = (l.map g).sum + l.length * d
  | [] => by simp
  | x :: xs => by
      rw [List.map_cons, List.sum_cons, sum_map_add_const g d xs,
        List.map_cons, List.sum_cons, List.length_cons]
      push_cast
      ring

theorem centroid_setLocation (coords : List (ℝ × ℝ × ℝ)) (loc : ℝ × ℝ × ℝ)
    (h : coords ≠ []) : centroid (setLocation coords loc) = loc := by
  have hn : (coords.length : ℝ) ≠ 0 := by
    exact_mod_cast (List.length_pos.mpr h).ne'
  obtain ⟨l1, l2, l3⟩ := loc
  unfold setLocation centroid
  simp only [List.map_map, List.length_map]
  refine Prod.ext ?_ (Prod.ext ?_ ?_)
  · show (List.map (fun v : ℝ × ℝ × ℝ =>
        v.1 + (((l1, l2, l3) : ℝ × ℝ × ℝ) - centroid coords).1) coords).sum
        / (coords.length : ℝ) = l1
    rw [sum_map_add_const]
    show ((List.map (fun v : ℝ × ℝ × ℝ => v.1) coords).sum
        + coords.length * (l1 - (List.map (fun v : ℝ × ℝ × ℝ => v.1) coords).sum / coords.length))
        / (coords.length : ℝ) = l1
    field_simp
  · show (List.map (fun v : ℝ × ℝ × ℝ =>
        v.2.1 + (((l1, l2, l3) : ℝ × ℝ × ℝ) - centroid coords).2.1) coords).sum
        / (coords.length : ℝ) = l2
    rw [sum_map_add_const]
    show ((List.map (fun v : ℝ × ℝ × ℝ => v.2.1) coords).sum
        + coords.length * (l2 - (List.map (fun v : ℝ × ℝ × ℝ => v.2.1) coords).sum / coords.length))
        / (coords.length : ℝ) = l2
    field_simp
  · show (List.map (fun v : ℝ × ℝ × ℝ =>
        v.2.2 + (((l1, l2, l3) : ℝ × ℝ × ℝ) - centroid coords).2.2) coords).sum
        / (coords.length : ℝ) = l3
    rw [sum_map_add_const]
    show ((List.map (fun v : ℝ × ℝ × ℝ => v.2.2) coords).sum
        + coords.length * (l3 - (List.map (fun v : ℝ × ℝ × ℝ => v.2.2) coords).sum / coords.length))
        / (coords.length : ℝ) = l3
    field_simp

theorem lookupA_updateA_eq {β : Type} (k : Nat) (f : β → β) :
    ∀ (xs : List (Nat × β)) (v : β), lookupA xs k = some v →
      lookupA (updateA xs k f) k = some (f v)
  | [], v, h => by cases h
  | (k', w) :: rest, v, h => by
      by_cases hk : k' = k
      · subst hk
        simp [lookupA] at h
        subst h
        simp [updateA, lookupA]
      · simp [lookupA, hk] at h
        simp [updateA, lookupA, hk]
        exact lookupA_updateA_eq k f rest v h

/-- Claim C6: move_node translates the node's array center exactly to
the requested location and calls realize() only on the channels of the
node's downlink and uplink adjacency lists — the link dict, the adjacency
structure, every other node's geometry, and the stored channel state of
every channel outside those two lists are unchanged, so an unrelated
link's matrix is bit-identical before and after the move. -/
theorem move_node_frame (st : Network) (geom : Geom) (nid : Nat)
    (loc : ℝ × ℝ × ℝ) (e : ConnEntry) (cs : List (ℝ × ℝ × ℝ))
    (hconn : lookupA st.connections nid = some e)
    (hgeom : lookupA geom nid = some cs) (hne : cs ≠ []) :
    ∃ st2 : Network,
      st.move_node geom nid loc
        = .ok (st2, updateA geom nid (fun c0 => setLocation c0 loc))
      ∧ lookupA (updateA geom nid (fun c0 => setLocation c0 loc)) nid
          = some (setLocation cs loc)
      ∧ centroid (setLocation cs loc) = loc
      ∧ (∀ m, m ≠ nid →
          lookupA (updateA geom nid (fun c0 => setLocation c0 loc)) m
            = lookupA geom m)
      ∧ st2.links = st.links
      ∧ st2.connections = st.connections
      ∧ ∀ c : Chan, c.id ∉ (e.dl ++ e.ul).map Chan.id →
          lookupA st2.draws c.id = lookupA st.draws c.id := by
  refine ⟨e.ul.foldl realizeChan (e.dl.foldl realizeChan st), ?_, ?_, ?_, ?_, ?_, ?_, ?_⟩
  · unfold Network.move_node
    rw [hconn]
  · exact lookupA_updateA_eq nid _ geom cs hgeom
  · exact centroid_setLocation cs loc hne
  · intro m hm
    exact lookupA_updateA_ne nid m _ hm geom
  · rw [foldl_realizeChan_links, foldl_realizeChan_links]
  · rw [foldl_realizeChan_connections, foldl_realizeChan_connections]
  · intro c hc
    rw [List.map_append] at hc
    rw [foldl_realizeChan_draws_ne c.id e.ul _
        (fun h => hc (List.mem_append_right _ h)),
      foldl_realizeChan_draws_ne c.id e.dl st
        (fun h => hc (List.mem_append_left _ h))]

/-- Witness for move_node_frame: moving node 10 of a one-link network
whose geometry holds one element at the origin. -/
theorem move_node_frame_witness :
    lookupA (Network.empty.add_links [⟨1, "L", 10, 20⟩]).connections 10
      = some ⟨[⟨1, "L", 10, 20⟩], []⟩
    ∧ lookupA ([(10, [((0 : ℝ), (0 : ℝ), (0 : ℝ))])] : Geom) 10
      = some [((0 : ℝ), (0 : ℝ), (0 : ℝ))]
    ∧ ∃ st2 : Network,
        (Network.empty.add_links [⟨1, "L", 10, 20⟩]).move_node
            ([(10, [((0 : ℝ), (0 : ℝ), (0 : ℝ))])] : Geom) 10 (1, 2, 3)
          = .ok (st2, updateA ([(10, [((0 : ℝ), (0 : ℝ), (0 : ℝ))])] : Geom) 10
              (fun c0 => setLocation c0 (1, 2, 3)))
        ∧ lookupA (updateA ([(10, [((0 : ℝ), (0 : ℝ), (0 : ℝ))])] : Geom) 10
              (fun c0 => setLocation c0 (1, 2, 3))) 10
            = some (setLocation [((0 : ℝ), (0 : ℝ), (0 : ℝ))] (1, 2, 3))
        ∧ centroid (setLocation [((0 : ℝ), (0 : ℝ), (0 : ℝ))] (1, 2, 3)) = (1, 2, 3)
        ∧ (∀ m, m ≠ 10 →
            lookupA (updateA ([(10, [((0 : ℝ), (0 : ℝ), (0 : ℝ))])] : Geom) 10
                (fun c0 => setLocation c0 (1, 2, 3))) m
              = lookupA ([(10, [((0 : ℝ), (0 : ℝ), (0 : ℝ))])] : Geom) m)
        ∧ st2.links = (Network.empty.add_links [⟨1, "L", 10, 20⟩]).links
        ∧ st2.connections = (Network.empty.add_links [⟨1, "L", 10, 20⟩]).connections
        ∧ ∀ c : Chan,
            c.id ∉ ((ConnEntry.mk [⟨1, "L", 10, 20⟩] []).dl
                ++ (ConnEntry.mk [⟨1, "L", 10, 20⟩] []).ul).map Chan.id →
            lookupA st2.draws c.id
              = lookupA (Network.empty.add_links [⟨1, "L", 10, 20⟩]).draws c.id :=
  ⟨by decide, rfl,
   move_node_frame (Network.empty.add_links [⟨1, "L", 10, 20⟩])
     ([(10, [((0 : ℝ), (0 : ℝ), (0 : ℝ))])] : Geom) 10 (1, 2, 3)
     ⟨[⟨1, "L", 10, 20⟩], []⟩ [((0 : ℝ), (0 : ℝ), (0 : ℝ))]
     (by decide) rfl (by simp)⟩
